import Mathlib

/-
Verification development for `geoserver-utils/publish_layers.py`.

The script is embedded shallowly:
  * JSON values / Python objects that flow through the script are modelled by
    the inductive type `PyVal` (strings, integers, booleans, lists,
    insertion-ordered dicts, and Python's `None`).
  * Python runtime errors (`KeyError`, `TypeError`, `ValueError`, the
    `Exception` raised in `api_request`, and exceptions raised by the
    `requests` library) are modelled by `PyErr`; fallible code returns
    `Except PyErr`.
  * The remote GeoServer is an oracle `Server` mapping each GET/POST request
    to either a raised error (a `requests` failure) or an `HttpResponse`
    carrying its status code, its raw body text, and - since we do not model a
    JSON parser - the result `jsonOf` that `json.loads` would produce on that
    text (`Option.none` when the body is not valid JSON).
  * Side effects (network calls and `print` calls) are recorded in an event
    trace: each function of the script returns `Run alpha`, a pair of the
    emitted events and an `Except PyErr alpha` result.  A `print(x, end='')`
    call and a plain `print(x)` call are both recorded as
    `Event.printed x`; newline handling is not observable in any claim.
    The constant request headers (Accept / Content-Type / Authorization) are
    attached verbatim to every request and carry no per-call information, so
    they are not recorded in the trace.
-/

/-- Python runtime errors that the script can raise or meet. -/
inductive PyErr where
  | keyError (key : String)
  | typeError (msg : String)
  | valueError (msg : String)
  | exception (msg : String)
  | requestError (msg : String)
  deriving Repr, DecidableEq

/-- JSON values / Python objects flowing through the script.  Dicts are
insertion-ordered association lists, matching Python 3 dict semantics. -/
inductive PyVal where
  | str (s : String)
  | int (n : Int)
  | bool (b : Bool)
  | list (xs : List PyVal)
  | dict (kvs : List (String × PyVal))
  | none
  deriving Repr

/-- Python subscript `v[k]` with a string key: on a dict it looks the key up
(first occurrence; real dicts have unique keys) and raises `KeyError` when
absent; on any other value it raises `TypeError`. -/
def PyVal.getItem : PyVal → String → Except PyErr PyVal
  | PyVal.dict kvs, k =>
    match kvs.lookup k with
    | some v => Except.ok v
    | Option.none => Except.error (PyErr.keyError k)
  | _, _ => Except.error (PyErr.typeError "object is not subscriptable with a string key")

/-- `needle` occurs at the front of `hay`. -/
def chPre : List Char → List Char → Bool
  | [], _ => true
  | _ :: _, [] => false
  | a :: as, b :: bs => a == b && chPre as bs

/-- `needle` occurs somewhere inside `hay` (Python substring test). -/
def chSub (needle : List Char) : List Char → Bool
  | [] => chPre needle []
  | c :: cs => chPre needle (c :: cs) || chSub needle cs

/-- Python `k in v` for a string `k`: key membership on dicts, substring test
on strings, element equality on lists (a string equals only an equal string),
`TypeError` otherwise. -/
def pyContains : PyVal → String → Except PyErr Bool
  | PyVal.dict kvs, k => Except.ok (kvs.any (fun p => p.1 == k))
  | PyVal.str s, k => Except.ok (chSub k.data s.data)
  | PyVal.list xs, k =>
    Except.ok (xs.any (fun v => match v with
      | PyVal.str s => s == k
      | _ => false))
  | _, _ => Except.error (PyErr.typeError "argument is not iterable")

/-- Python iteration `for x in v`: elements of a list, characters of a string
(each a one-character string), keys of a dict; `TypeError` otherwise. -/
def PyVal.pyIter : PyVal → Except PyErr (List PyVal)
  | PyVal.list xs => Except.ok xs
  | PyVal.str s => Except.ok (s.data.map (fun c => PyVal.str (String.singleton c)))
  | PyVal.dict kvs => Except.ok (kvs.map (fun p => PyVal.str p.1))
  | _ => Except.error (PyErr.typeError "object is not iterable")

/-- Python `len(v)`. -/
def PyVal.pyLen : PyVal → Except PyErr Nat
  | PyVal.list xs => Except.ok xs.length
  | PyVal.str s => Except.ok s.length
  | PyVal.dict kvs => Except.ok kvs.length
  | _ => Except.error (PyErr.typeError "object has no len")

/-- Python truthiness of the values above (non-empty container / string,
non-zero integer, the boolean itself, `None` false). -/
def PyVal.truthy : PyVal → Bool
  | PyVal.str s => !s.isEmpty
  | PyVal.int n => n != 0
  | PyVal.bool b => b
  | PyVal.list xs => !xs.isEmpty
  | PyVal.dict kvs => !kvs.isEmpty
  | PyVal.none => false

/-- `json.dumps` escaping of one character.  (`json.dumps` additionally
escapes other control characters and, with its `ensure_ascii` default,
non-ASCII characters; the script only serializes plain ASCII identifiers and
titles, where the two agree.) -/
def jsonEscapeChar (c : Char) : String :=
  if c == '"' then "\\\""
  else if c == '\\' then "\\\\"
  else if c == '\n' then "\\n"
  else if c == '\r' then "\\r"
  else if c == '\t' then "\\t"
  else String.singleton c

/-- `json.dumps` escaping of a string (without the surrounding quotes). -/
def jsonEscape (s : String) : String :=
  String.join (s.data.map jsonEscapeChar)

mutual

/-- `json.dumps` with its default separators: `", "` between items and
`": "` between a key and its value. -/
def PyVal.dumps : PyVal → String
  | PyVal.str s => "\"" ++ jsonEscape s ++ "\""
  | PyVal.int n => toString n
  | PyVal.bool true => "true"
  | PyVal.bool false => "false"
  | PyVal.none => "null"
  | PyVal.list xs => "[" ++ String.intercalate ", " (dumpsElems xs) ++ "]"
  | PyVal.dict kvs => "\x7b" ++ String.intercalate ", " (dumpsPairs kvs) ++ "\x7d"

/-- Serialized forms of the elements of a JSON array. -/
def dumpsElems : List PyVal → List String
  | [] => []
  | v :: vs => PyVal.dumps v :: dumpsElems vs

/-- Serialized forms of the entries of a JSON object. -/
def dumpsPairs : List (String × PyVal) → List String
  | [] => []
  | (k, v) :: kvs => ("\"" ++ jsonEscape k ++ "\": " ++ PyVal.dumps v) :: dumpsPairs kvs

end

/-- Python `str(v)` as used by `"...".format(v)` in the script.  The script
only ever formats strings and integers; the remaining cases are approximations
of Python's rendering and are never reached by the claims. -/
def pyStr : PyVal → String
  | PyVal.str s => s
  | PyVal.int n => toString n
  | PyVal.bool true => "True"
  | PyVal.bool false => "False"
  | PyVal.none => "None"
  | v => PyVal.dumps v

/-- Python `d[k] = v` on a dict: updates the first entry with key `k` in
place, or appends a new entry at the end (Python 3 insertion order). -/
def setKey : List (String × PyVal) → String → PyVal → List (String × PyVal)
  | [], k, v => [(k, v)]
  | (k0, v0) :: rest, k, v =>
    if k0 == k then (k0, v) :: rest else (k0, v0) :: setKey rest k v

/-- Python `d[k] = v` lifted to `PyVal` (only ever applied to dicts). -/
def dictSet : PyVal → String → PyVal → PyVal
  | PyVal.dict kvs, k, v => PyVal.dict (setKey kvs k v)
  | d, _, _ => d

/-- The entries of a dict (empty on non-dicts); used to state properties of
constructed dict values. -/
def dictEntries : PyVal → List (String × PyVal)
  | PyVal.dict kvs => kvs
  | _ => []

/-- The loaded `config.json`.  `pfx` models the config key `"prefix"`
(`config['geoserver']['prefix']`); `name_title_map` is the insertion-ordered
dict `config['name_title_map']` (real dicts have unique keys). -/
structure Config where
  host : String
  pfx : String
  auth : String
  workspaces : List String
  name_title_map : List (String × String)

/-- An HTTP response as seen by the script: its status code, its raw body
text, and the value `json.loads` yields on that text (`Option.none` when the
body is not valid JSON). -/
structure HttpResponse where
  status_code : Nat
  text : String
  jsonOf : Option PyVal

/-- The remote server, as an oracle answering each request.  A
`Except.error` answer models an exception raised by `requests.request`
(connection failure and the like). -/
structure Server where
  get : String → List (String × String) → Except PyErr HttpResponse
  post : String → String → Except PyErr HttpResponse

/-- Observable events of a run: network calls and `print` calls. -/
inductive Event where
  | netGet (url : String) (params : List (String × String))
  | netPost (url : String) (data : String)
  | printed (s : String)
  deriving Repr, DecidableEq

/-- The effect of running a piece of the script: the events it emitted, and
its result or the uncaught Python error it raised. -/
abbrev Run (α : Type) := List Event × Except PyErr α

/-- The module-level `layer_template` dict (lines 40-45 of the script):
`'{'`/`'}'`-style placeholder strings for the three string fields and
`enabled` fixed to `True`. -/
def layer_template : PyVal :=
  PyVal.dict [("title", PyVal.str "\x7b\x7d"), ("nativeName", PyVal.str "\x7b\x7d"),
    ("name", PyVal.str "\x7b\x7d"), ("enabled", PyVal.bool true)]

/-- The dict built by `make_layer` before serialization: a deep copy of
`layer_template` (value semantics in this embedding) with `nativeName`,
`name` and `title` assigned in that order; `if not nativeName` replaces any
falsy `nativeName` argument (the default `None`, or an empty string) by
`name`. -/
def make_layer_obj (name title nativeName : PyVal) : PyVal :=
  let nn := if nativeName.truthy then nativeName else name
  dictSet (dictSet (dictSet layer_template "nativeName" nn) "name" name) "title" title

/-- `make_layer(name, title, nativeName=None)` (lines 47-59): returns
`json.dumps({"featureType": layer})`. -/
def make_layer (name title nativeName : PyVal) : String :=
  PyVal.dumps (PyVal.dict [("featureType", make_layer_obj name title nativeName)])

/-- Python `s.lower()` (ASCII suffices for the method names compared in
`api_request`), written to reduce definitionally. -/
def strLower (s : String) : String :=
  String.mk (s.data.map Char.toLower)

/-- The URL built by `api_request` (line 62):
`"https://{host}{prefix}{path}"`. -/
def api_url (cfg : Config) (path : String) : String :=
  "https://" ++ cfg.host ++ cfg.pfx ++ path

/-- The result of `api_request`: parsed JSON for a GET, the raw response
object for a POST. -/
inductive ApiResult where
  | json (v : PyVal)
  | resp (r : HttpResponse)

/-- `api_request(path, type="GET", params=None, data=None)` (lines 61-82).
`type.lower()` (here `strLower type`) selects the branch; GET parses the body as JSON and turns a
`json.decoder.JSONDecodeError` into an `Exception` naming the status code and
the raw body, POST returns the raw response unparsed, and any other `type`
raises `ValueError("Invalid request type")` with no request ever sent.  A
`requests.request` exception is not a `JSONDecodeError`, so it propagates.
`params=None` and `params` absent are both modelled as `[]`, `data=None`
as `""`. -/
def api_request (srv : Server) (cfg : Config) (path type : String)
    (params : List (String × String)) (data : String) : Run ApiResult :=
  let url := api_url cfg path
  if strLower type == "get" then
    match srv.get url params with
    | Except.error e => ([Event.netGet url params], Except.error e)
    | Except.ok r =>
      match r.jsonOf with
      | some v => ([Event.netGet url params], Except.ok (ApiResult.json v))
      | Option.none =>
        ([Event.netGet url params],
          Except.error (PyErr.exception
            ("Response (code " ++ toString r.status_code ++ ") was not JSON: " ++ r.text)))
  else if strLower type == "post" then
    match srv.post url data with
    | Except.error e => ([Event.netPost url data], Except.error e)
    | Except.ok r => ([Event.netPost url data], Except.ok (ApiResult.resp r))
  else
    ([], Except.error (PyErr.valueError "Invalid request type"))

/-- `publish_featuretype(workspace, store, definition_json)` (lines 84-89):
POSTs the serialized definition to the store's `featuretypes` collection and
returns the raw response.  (The GET arm of `api_request` can never be taken
here; its branch stands for the `AttributeError` the caller's
`.status_code` access would raise on a parsed dict.) -/
def publish_featuretype (srv : Server) (cfg : Config) (workspace store : String)
    (definition_json : String) : Run HttpResponse :=
  let a := api_request srv cfg
    ("/workspaces/" ++ workspace ++ "/datastores/" ++ store ++ "/featuretypes")
    "post" [] definition_json
  match a.2 with
  | Except.error e => (a.1, Except.error e)
  | Except.ok (ApiResult.resp r) => (a.1, Except.ok r)
  | Except.ok (ApiResult.json _) =>
    (a.1, Except.error (PyErr.typeError "dict object has no attribute status_code"))

/-- `get_stores_for_workspace(workspace)` (lines 91-96): GET the workspace's
datastores collection and unwrap `response['dataStores']['dataStore']`;
missing keys raise `KeyError` here.  (As above, the POST arm is
unreachable.) -/
def get_stores_for_workspace (srv : Server) (cfg : Config) (workspace : String) :
    Run PyVal :=
  let a := api_request srv cfg ("/workspaces/" ++ workspace ++ "/datastores") "GET" [] ""
  match a.2 with
  | Except.error e => (a.1, Except.error e)
  | Except.ok (ApiResult.resp _) =>
    (a.1, Except.error (PyErr.typeError "object is not subscriptable with a string key"))
  | Except.ok (ApiResult.json response) =>
    match response.getItem "dataStores" with
    | Except.error e => (a.1, Except.error e)
    | Except.ok ds =>
      match ds.getItem "dataStore" with
      | Except.error e => (a.1, Except.error e)
      | Except.ok v => (a.1, Except.ok v)

/-- `get_unassigned_layers(workspace, store)` (lines 98-108): GET the store's
feature types with `params={"list": "available"}`; if `"string" in
response['list']` return `response['list']['string']` verbatim (whatever
shape it has), else return the empty list. -/
def get_unassigned_layers (srv : Server) (cfg : Config) (workspace store : String) :
    Run PyVal :=
  let a := api_request srv cfg
    ("/workspaces/" ++ workspace ++ "/datastores/" ++ store ++ "/featuretypes")
    "GET" [("list", "available")] ""
  match a.2 with
  | Except.error e => (a.1, Except.error e)
  | Except.ok (ApiResult.resp _) =>
    (a.1, Except.error (PyErr.typeError "object is not subscriptable with a string key"))
  | Except.ok (ApiResult.json response) =>
    match response.getItem "list" with
    | Except.error e => (a.1, Except.error e)
    | Except.ok l =>
      match pyContains l "string" with
      | Except.error e => (a.1, Except.error e)
      | Except.ok true =>
        match l.getItem "string" with
        | Except.error e => (a.1, Except.error e)
        | Except.ok v => (a.1, Except.ok v)
      | Except.ok false => (a.1, Except.ok (PyVal.list []))

/-- `map_title(layername)` (lines 114-118): `layername in
config['name_title_map']` followed by the subscript — on the association list
both are the first (only) entry with that key, so the two collapse to one
lookup; any non-string argument is never a key of the string-keyed dict and
comes back unchanged. -/
def map_title (cfg : Config) (layername : PyVal) : PyVal :=
  match layername with
  | PyVal.str s =>
    match cfg.name_title_map.lookup s with
    | some t => PyVal.str t
    | Option.none => PyVal.str s
  | other => other

/-- The innermost orchestrator loop (lines 137-143): per layer, print
`"{layer}..."`, publish `make_layer(layer, map_title(layer))`, and print
`"OK"` when the response's status code is 201, `"FAIL"` otherwise. -/
def run_layers (srv : Server) (cfg : Config) (workspace storeName : String) :
    List PyVal → Run Unit
  | [] => ([], Except.ok ())
  | layer :: rest =>
    let head := [Event.printed (pyStr layer ++ "...")]
    let p := publish_featuretype srv cfg workspace storeName
      (make_layer layer (map_title cfg layer) PyVal.none)
    match p.2 with
    | Except.error e => (head ++ p.1, Except.error e)
    | Except.ok resp =>
      let verdict := Event.printed (if resp.status_code == 201 then "OK" else "FAIL")
      let r := run_layers srv cfg workspace storeName rest
      (head ++ p.1 ++ [verdict] ++ r.1, r.2)

/-- One iteration of the store loop (lines 130-143): look up `store['name']`,
query unassigned layers, print the count line, print the `"Publishing them
all now..."` line when the result is truthy, then iterate over it. -/
def run_store (srv : Server) (cfg : Config) (workspace : String) (store : PyVal) :
    Run Unit :=
  match store.getItem "name" with
  | Except.error e => ([], Except.error e)
  | Except.ok sn =>
    let u := get_unassigned_layers srv cfg workspace (pyStr sn)
    match u.2 with
    | Except.error e => (u.1, Except.error e)
    | Except.ok unassigned =>
      match unassigned.pyLen with
      | Except.error e => (u.1, Except.error e)
      | Except.ok n =>
        let countLine := Event.printed
          ("Store " ++ pyStr sn ++ " in " ++ workspace ++ " has " ++ toString n
            ++ " unassigned layers")
        let publishLine :=
          if unassigned.truthy then [Event.printed "Publishing them all now..."] else []
        match unassigned.pyIter with
        | Except.error e => (u.1 ++ [countLine] ++ publishLine, Except.error e)
        | Except.ok layers =>
          let r := run_layers srv cfg workspace (pyStr sn) layers
          (u.1 ++ [countLine] ++ publishLine ++ r.1, r.2)

/-- The store loop over the value returned for a workspace. -/
def run_stores (srv : Server) (cfg : Config) (workspace : String) :
    List PyVal → Run Unit
  | [] => ([], Except.ok ())
  | s :: rest =>
    let r := run_store srv cfg workspace s
    match r.2 with
    | Except.error e => (r.1, Except.error e)
    | Except.ok _ =>
      let rr := run_stores srv cfg workspace rest
      (r.1 ++ rr.1, rr.2)

/-- One iteration of the workspace loop (lines 124-143).  The bare
`try`/`except` wraps exactly the `get_stores_for_workspace` call: any error
it raises — of any kind — is swallowed, the notice is printed, and the
iteration ends normally (`continue`).  Everything after it, starting with the
iteration over the stores value, is outside the `try` and propagates. -/
def run_workspace (srv : Server) (cfg : Config) (workspace : String) : Run Unit :=
  let g := get_stores_for_workspace srv cfg workspace
  match g.2 with
  | Except.error _ =>
    (g.1 ++ [Event.printed ("No stores found for workspace " ++ workspace)], Except.ok ())
  | Except.ok stores =>
    match stores.pyIter with
    | Except.error e => (g.1, Except.error e)
    | Except.ok storeList =>
      let r := run_stores srv cfg workspace storeList
      (g.1 ++ r.1, r.2)

/-- The workspace loop: a workspace whose body raised stops the run (the
error propagates out of the loop); otherwise the next workspace follows. -/
def run_workspaces (srv : Server) (cfg : Config) : List String → Run Unit
  | [] => ([], Except.ok ())
  | w :: rest =>
    let r := run_workspace srv cfg w
    match r.2 with
    | Except.error e => (r.1, Except.error e)
    | Except.ok _ =>
      let rr := run_workspaces srv cfg rest
      (r.1 ++ rr.1, rr.2)

/-- The whole script after the config is loaded (lines 122-143): the two
header lines, then the workspace loop. -/
def main_run (srv : Server) (cfg : Config) : Run Unit :=
  let header :=
    [Event.printed ("Checking stores for workspaces: "
        ++ String.intercalate ", " cfg.workspaces),
      Event.printed "----------------------------------"]
  let r := run_workspaces srv cfg cfg.workspaces
  (header ++ r.1, r.2)

/-
Concrete fixtures used by witnesses and scenario claims.
-/

/-- The configuration of the spec's scenario: workspace `ltj-dev`, one
mapped title. -/
def cfgDemo : Config :=
  ⟨"geoserver.hel.fi", "/geoserver/rest", "Basic xyz", ["ltj-dev"],
    [("arvo_kaapakohteet", "Valuable conks")]⟩

/-- A server for the scenario: one datastore `pg_main` whose
`featuretypes?list=available` query yields the two-element list; POST answers
status `s1` for the `arvo_kaapakohteet` definition and `s2` for any other
body. -/
def srvDemo (s1 s2 : Nat) : Server where
  get := fun url _ =>
    if url == "https://geoserver.hel.fi/geoserver/rest/workspaces/ltj-dev/datastores" then
      Except.ok ⟨200, "",
        some (PyVal.dict [("dataStores", PyVal.dict [("dataStore",
          PyVal.list [PyVal.dict [("name", PyVal.str "pg_main")]])])])⟩
    else
      Except.ok ⟨200, "",
        some (PyVal.dict [("list", PyVal.dict [("string",
          PyVal.list [PyVal.str "arvo_kaapakohteet", PyVal.str "unmapped_layer"])])])⟩
  post := fun _ body =>
    Except.ok ⟨if body == make_layer (PyVal.str "arvo_kaapakohteet")
        (PyVal.str "Valuable conks") PyVal.none then s1 else s2, "", Option.none⟩

/-- A server on which every request raises (connection refused). -/
def srvDown : Server where
  get := fun _ _ => Except.error (PyErr.requestError "connection refused")
  post := fun _ _ => Except.error (PyErr.requestError "connection refused")

/-- A two-workspace configuration. -/
def cfgTwo : Config := ⟨"h", "/r", "a", ["w1", "w2"], []⟩

/-- A server whose GET responses are not valid JSON (`jsonOf` empty, raw body
`"oops"`, status 500). -/
def srvBadBody : Server where
  get := fun _ _ => Except.ok ⟨500, "oops", Option.none⟩
  post := fun _ _ => Except.ok ⟨500, "oops", Option.none⟩

/-- A one-workspace configuration with an empty title map. -/
def cfgOne : Config := ⟨"h", "/r", "a", ["ws"], []⟩

/-- A server whose store `st` reports a single unassigned layer: the
`list.string` field holds the single string `"ab"`, the shape GeoServer uses
when exactly one feature type is available. -/
def srvSingle : Server where
  get := fun url _ =>
    if url == "https://h/r/workspaces/ws/datastores" then
      Except.ok ⟨200, "",
        some (PyVal.dict [("dataStores", PyVal.dict [("dataStore",
          PyVal.list [PyVal.dict [("name", PyVal.str "st")]])])])⟩
    else
      Except.ok ⟨200, "",
        some (PyVal.dict [("list", PyVal.dict [("string", PyVal.str "ab")])])⟩
  post := fun _ _ => Except.ok ⟨201, "", Option.none⟩

/-- Claim C7: for every layer name that is a key of the configured
`name_title_map`, `map_title` returns the mapped value; for every other layer
name it returns the name itself. -/
theorem map_title_lookup_or_identity (cfg : Config) (name : String) :
    (∀ t, cfg.name_title_map.lookup name = some t →
      map_title cfg (PyVal.str name) = PyVal.str t)
    ∧ (cfg.name_title_map.lookup name = Option.none →
      map_title cfg (PyVal.str name) = PyVal.str name) := by
  constructor
  · intro t ht
    simp [map_title, ht]
  · intro h
    simp [map_title, h]

theorem map_title_lookup_or_identity_witness :
    map_title cfgDemo (PyVal.str "arvo_kaapakohteet") = PyVal.str "Valuable conks"
    ∧ map_title cfgDemo (PyVal.str "unmapped_layer") = PyVal.str "unmapped_layer" :=
  ⟨(map_title_lookup_or_identity cfgDemo "arvo_kaapakohteet").1 "Valuable conks" rfl,
    (map_title_lookup_or_identity cfgDemo "unmapped_layer").2 rfl⟩

/-- Claim C10: `make_layer` with the empty string as the explicit
`nativeName` argument behaves exactly as with the argument absent
(`nativeName` falls back to `name` on any falsy value), and the module-level
`layer_template` is a fixed value every call copies (in this pure embedding
`copy.deepcopy` is value semantics, so no call can alter the template, which
stays equal to its literal). -/
theorem empty_native_name_falls_back_and_template_fixed (name title : PyVal) :
    make_layer name title (PyVal.str "") = make_layer name title PyVal.none
    ∧ dictEntries (make_layer_obj name title (PyVal.str "")) =
        [("title", title), ("nativeName", name), ("name", name),
          ("enabled", PyVal.bool true)]
    ∧ layer_template = PyVal.dict [("title", PyVal.str "\x7b\x7d"),
        ("nativeName", PyVal.str "\x7b\x7d"), ("name", PyVal.str "\x7b\x7d"),
        ("enabled", PyVal.bool true)] :=
  ⟨rfl, rfl, rfl⟩

/-- Claim C5: any `type` argument whose lower-casing is neither `"get"` nor
`"post"` makes `api_request` raise `ValueError` with an empty event trace: no
network call is made. -/
theorem invalid_method_rejected_before_network (srv : Server) (cfg : Config)
    (path type : String) (params : List (String × String)) (data : String)
    (hg : strLower type ≠ "get") (hp : strLower type ≠ "post") :
    api_request srv cfg path type params data =
      ([], Except.error (PyErr.valueError "Invalid request type")) := by
  simp [api_request, hg, hp]

theorem invalid_method_rejected_before_network_witness :
    api_request srvDown cfgTwo "/x" "put" [] "" =
      ([], Except.error (PyErr.valueError "Invalid request type")) :=
  invalid_method_rejected_before_network srvDown cfgTwo "/x" "put" [] ""
    (by decide) (by decide)

/-- `api_request` with the literal method `"GET"` used at every call site of
the script, unfolded past the method dispatch (which computes). -/
theorem api_request_get_eq (srv : Server) (cfg : Config) (path : String)
    (params : List (String × String)) (data : String) :
    api_request srv cfg path "GET" params data =
      (match srv.get (api_url cfg path) params with
       | Except.error e => ([Event.netGet (api_url cfg path) params], Except.error e)
       | Except.ok r =>
         match r.jsonOf with
         | some v => ([Event.netGet (api_url cfg path) params], Except.ok (ApiResult.json v))
         | Option.none =>
           ([Event.netGet (api_url cfg path) params],
             Except.error (PyErr.exception
               ("Response (code " ++ toString r.status_code ++ ") was not JSON: "
                 ++ r.text)))) := rfl

/-- `api_request` with the literal method `"post"` used by
`publish_featuretype`, unfolded past the method dispatch. -/
theorem api_request_post_eq (srv : Server) (cfg : Config) (path : String)
    (params : List (String × String)) (data : String) :
    api_request srv cfg path "post" params data =
      (match srv.post (api_url cfg path) data with
       | Except.error e => ([Event.netPost (api_url cfg path) data], Except.error e)
       | Except.ok r =>
         ([Event.netPost (api_url cfg path) data],
           Except.ok (ApiResult.resp r))) := rfl

/-- Claim C6: a GET whose response body is not valid JSON raises the
script's own `Exception` — not the raw `JSONDecodeError` — and its message is
the status code and the raw body text spliced into `"Response (code ...) was
not JSON: ..."`; in particular the message extends to both. -/
theorem non_json_get_error_descriptive (srv : Server) (cfg : Config) (path : String)
    (params : List (String × String)) (r : HttpResponse)
    (hr : srv.get (api_url cfg path) params = Except.ok r)
    (hj : r.jsonOf = Option.none) :
    api_request srv cfg path "GET" params "" =
      ([Event.netGet (api_url cfg path) params],
        Except.error (PyErr.exception
          ("Response (code " ++ toString r.status_code ++ ") was not JSON: " ++ r.text)))
    ∧ ∃ before between,
        "Response (code " ++ toString r.status_code ++ ") was not JSON: " ++ r.text =
          before ++ toString r.status_code ++ (between ++ r.text) := by
  constructor
  · simp only [api_request_get_eq, hr, hj]
  · exact ⟨"Response (code ", ") was not JSON: ", by simp [String.append_assoc]⟩

theorem non_json_get_error_descriptive_witness :
    api_request srvBadBody cfgTwo "/p" "GET" [] "" =
      ([Event.netGet "https://h/r/p" []],
        Except.error (PyErr.exception "Response (code 500) was not JSON: oops"))
    ∧ ∃ before between,
        "Response (code 500) was not JSON: oops" =
          before ++ "500" ++ (between ++ "oops") :=
  non_json_get_error_descriptive srvBadBody cfgTwo "/p" [] ⟨500, "oops", Option.none⟩
    rfl rfl

/-- Claim C8: with `nativeName` left to its default, `make_layer` serializes
a `featureType` envelope whose `nativeName` equals `name`; and
`publish_featuretype` sends exactly one POST, of the given serialized body,
to `/workspaces/{workspace}/datastores/{store}/featuretypes`. -/
theorem make_layer_default_native_and_post_path (srv : Server) (cfg : Config)
    (workspace store name title body : String) :
    make_layer (PyVal.str name) (PyVal.str title) PyVal.none =
      PyVal.dumps (PyVal.dict [("featureType",
        PyVal.dict [("title", PyVal.str title), ("nativeName", PyVal.str name),
          ("name", PyVal.str name), ("enabled", PyVal.bool true)])])
    ∧ (publish_featuretype srv cfg workspace store body).1 =
        [Event.netPost
          (api_url cfg ("/workspaces/" ++ workspace ++ "/datastores/" ++ store
            ++ "/featuretypes"))
          body] := by
  constructor
  · rfl
  · cases h : srv.post (api_url cfg ("/workspaces/" ++ workspace ++ "/datastores/"
        ++ store ++ "/featuretypes")) body with
    | error e => simp [publish_featuretype, api_request_post_eq, h]
    | ok r => simp [publish_featuretype, api_request_post_eq, h]

/-- Claim C1, failing case (code bug): on a server response whose
`list.string` field holds the single string `"ab"`, `get_unassigned_layers`
returns that string itself, not a one-element sequence containing it.
Downstream the bare string has `len` 2 and iterates as its characters, so the
full run reports `2 unassigned layers` and publishes the one-character layers
`"a"` and `"b"` instead of publishing `"ab"` once. -/
theorem single_string_response_not_wrapped :
    (get_unassigned_layers srvSingle cfgOne "ws" "st").2 = Except.ok (PyVal.str "ab")
    ∧ PyVal.str "ab" ≠ PyVal.list [PyVal.str "ab"]
    ∧ (PyVal.str "ab").pyLen = Except.ok 2
    ∧ (PyVal.str "ab").pyIter = Except.ok [PyVal.str "a", PyVal.str "b"]
    ∧ main_run srvSingle cfgOne =
        ([Event.printed "Checking stores for workspaces: ws",
          Event.printed "----------------------------------",
          Event.netGet "https://h/r/workspaces/ws/datastores" [],
          Event.netGet "https://h/r/workspaces/ws/datastores/st/featuretypes"
            [("list", "available")],
          Event.printed "Store st in ws has 2 unassigned layers",
          Event.printed "Publishing them all now...",
          Event.printed "a...",
          Event.netPost "https://h/r/workspaces/ws/datastores/st/featuretypes"
            (make_layer (PyVal.str "a") (PyVal.str "a") PyVal.none),
          Event.printed "OK",
          Event.printed "b...",
          Event.netPost "https://h/r/workspaces/ws/datastores/st/featuretypes"
            (make_layer (PyVal.str "b") (PyVal.str "b") PyVal.none),
          Event.printed "OK"],
         Except.ok ()) :=
  ⟨rfl, fun h => PyVal.noConfusion h, rfl, rfl, rfl⟩

/-- Claim C2: the spec's scenario.  With `name_title_map` mapping
`arvo_kaapakohteet` to `Valuable conks`, workspace `ltj-dev` holding one
datastore `pg_main` with unassigned layers `arvo_kaapakohteet` and
`unmapped_layer`, the run publishes the first with title `Valuable conks` and
the second with its own name as title, prints
`Store pg_main in ltj-dev has 2 unassigned layers`, and prints per-layer `OK`
exactly when that POST's status code (`s1` resp. `s2`) is 201, `FAIL`
otherwise. -/
theorem scenario_ltj_dev_run (s1 s2 : Nat) :
    main_run (srvDemo s1 s2) cfgDemo =
      ([Event.printed "Checking stores for workspaces: ltj-dev",
        Event.printed "----------------------------------",
        Event.netGet
          "https://geoserver.hel.fi/geoserver/rest/workspaces/ltj-dev/datastores" [],
        Event.netGet
          "https://geoserver.hel.fi/geoserver/rest/workspaces/ltj-dev/datastores/pg_main/featuretypes"
          [("list", "available")],
        Event.printed "Store pg_main in ltj-dev has 2 unassigned layers",
        Event.printed "Publishing them all now...",
        Event.printed "arvo_kaapakohteet...",
        Event.netPost
          "https://geoserver.hel.fi/geoserver/rest/workspaces/ltj-dev/datastores/pg_main/featuretypes"
          (make_layer (PyVal.str "arvo_kaapakohteet") (PyVal.str "Valuable conks")
            PyVal.none),
        Event.printed (if s1 == 201 then "OK" else "FAIL"),
        Event.printed "unmapped_layer...",
        Event.netPost
          "https://geoserver.hel.fi/geoserver/rest/workspaces/ltj-dev/datastores/pg_main/featuretypes"
          (make_layer (PyVal.str "unmapped_layer") (PyVal.str "unmapped_layer")
            PyVal.none),
        Event.printed (if s2 == 201 then "OK" else "FAIL")],
       Except.ok ()) := rfl

/-- Claim C4: when a publish POST completes with response `r`, the layer loop
prints `OK` exactly when `r.status_code` is 201 and `FAIL` for every other
code — the verdict depends on nothing but the status code — and the remaining
layers are processed identically either way (the tail's events and result are
appended unchanged). -/
theorem publish_verdict_by_status_only (srv : Server) (cfg : Config)
    (workspace storeName : String) (layer : PyVal) (rest : List PyVal)
    (r : HttpResponse)
    (h : (publish_featuretype srv cfg workspace storeName
        (make_layer layer (map_title cfg layer) PyVal.none)).2 = Except.ok r) :
    run_layers srv cfg workspace storeName (layer :: rest) =
      ([Event.printed (pyStr layer ++ "...")]
        ++ (publish_featuretype srv cfg workspace storeName
              (make_layer layer (map_title cfg layer) PyVal.none)).1
        ++ [Event.printed (if r.status_code == 201 then "OK" else "FAIL")]
        ++ (run_layers srv cfg workspace storeName rest).1,
       (run_layers srv cfg workspace storeName rest).2) := by
  simp only [run_layers, h]

theorem publish_verdict_by_status_only_witness :
    run_layers (srvDemo 201 404) cfgDemo "ltj-dev" "pg_main"
        [PyVal.str "arvo_kaapakohteet"] =
      ([Event.printed (pyStr (PyVal.str "arvo_kaapakohteet") ++ "...")]
        ++ (publish_featuretype (srvDemo 201 404) cfgDemo "ltj-dev" "pg_main"
              (make_layer (PyVal.str "arvo_kaapakohteet")
                (map_title cfgDemo (PyVal.str "arvo_kaapakohteet")) PyVal.none)).1
        ++ [Event.printed (if (201 : Nat) == 201 then "OK" else "FAIL")]
        ++ (run_layers (srvDemo 201 404) cfgDemo "ltj-dev" "pg_main" []).1,
       (run_layers (srvDemo 201 404) cfgDemo "ltj-dev" "pg_main" []).2) :=
  publish_verdict_by_status_only (srvDemo 201 404) cfgDemo "ltj-dev" "pg_main"
    (PyVal.str "arvo_kaapakohteet") [] ⟨201, "", Option.none⟩ rfl

/-- Claim C3: the datastore-listing call is the only recovered failure.  If
`get_stores_for_workspace` fails for any reason, the workspace iteration
prints the `No stores found` notice and ends normally, so the loop goes on to
the remaining workspaces; conversely any error escaping a workspace iteration
implies the listing succeeded (it arose later), and it aborts the loop:
the remaining workspaces contribute nothing. -/
theorem only_store_listing_errors_recovered (srv : Server) (cfg : Config)
    (w : String) (rest : List String) :
    ((∃ e, (get_stores_for_workspace srv cfg w).2 = Except.error e) →
      run_workspace srv cfg w =
        ((get_stores_for_workspace srv cfg w).1
          ++ [Event.printed ("No stores found for workspace " ++ w)], Except.ok ())
      ∧ run_workspaces srv cfg (w :: rest) =
          ((run_workspace srv cfg w).1 ++ (run_workspaces srv cfg rest).1,
            (run_workspaces srv cfg rest).2))
    ∧ (∀ e, (run_workspace srv cfg w).2 = Except.error e →
        (∃ v, (get_stores_for_workspace srv cfg w).2 = Except.ok v)
        ∧ run_workspaces srv cfg (w :: rest) =
            ((run_workspace srv cfg w).1, Except.error e)) := by
  constructor
  · rintro ⟨e, he⟩
    have h1 : run_workspace srv cfg w =
        ((get_stores_for_workspace srv cfg w).1
          ++ [Event.printed ("No stores found for workspace " ++ w)],
          Except.ok ()) := by
      simp only [run_workspace, he]
    refine ⟨h1, ?_⟩
    simp only [run_workspaces, h1]
  · intro e he
    constructor
    · cases hg : (get_stores_for_workspace srv cfg w).2 with
      | error e2 =>
        exfalso
        have hok : (run_workspace srv cfg w).2 = Except.ok () := by
          simp only [run_workspace, hg]
        rw [hok] at he
        exact Except.noConfusion he
      | ok v => exact ⟨v, rfl⟩
    · simp only [run_workspaces, he]

theorem only_store_listing_errors_recovered_witness :
    run_workspace srvDown cfgTwo "w1" =
      ((get_stores_for_workspace srvDown cfgTwo "w1").1
        ++ [Event.printed ("No stores found for workspace " ++ "w1")], Except.ok ())
    ∧ run_workspaces srvDown cfgTwo ("w1" :: ["w2"]) =
        ((run_workspace srvDown cfgTwo "w1").1
          ++ (run_workspaces srvDown cfgTwo ["w2"]).1,
          (run_workspaces srvDown cfgTwo ["w2"]).2) :=
  (only_store_listing_errors_recovered srvDown cfgTwo "w1" ["w2"]).1
    ⟨PyErr.requestError "connection refused", rfl⟩

/-- The C9 invariant on a single event: a POST carries a definition built by
`make_layer` from some layer value with its mapped title and the default
native name; any other event is unconstrained. -/
def EventPostsLayer (cfg : Config) : Event → Prop
  | Event.netPost _ body => ∃ l, body = make_layer l (map_title cfg l) PyVal.none
  | _ => True

/-- The C9 invariant on a trace. -/
def PostsAreLayerDefs (cfg : Config) (evs : List Event) : Prop :=
  ∀ ev ∈ evs, EventPostsLayer cfg ev

theorem postsAreLayerDefs_nil (cfg : Config) : PostsAreLayerDefs cfg [] := by
  intro ev hev
  exact absurd hev (List.not_mem_nil ev)

theorem postsAreLayerDefs_append {cfg : Config} {a b : List Event}
    (ha : PostsAreLayerDefs cfg a) (hb : PostsAreLayerDefs cfg b) :
    PostsAreLayerDefs cfg (a ++ b) := by
  intro ev hev
  rcases List.mem_append.mp hev with h | h
  · exact ha ev h
  · exact hb ev h

theorem postsAreLayerDefs_printed (cfg : Config) (s : String) :
    PostsAreLayerDefs cfg [Event.printed s] := by
  intro ev hev
  have h := List.mem_singleton.mp hev
  subst h
  trivial

theorem postsAreLayerDefs_netGet (cfg : Config) (url : String)
    (params : List (String × String)) :
    PostsAreLayerDefs cfg [Event.netGet url params] := by
  intro ev hev
  have h := List.mem_singleton.mp hev
  subst h
  trivial

theorem postsAreLayerDefs_ite_printed (cfg : Config) (c : Bool) (s : String) :
    PostsAreLayerDefs cfg (if c then [Event.printed s] else []) := by
  cases c
  · exact postsAreLayerDefs_nil cfg
  · exact postsAreLayerDefs_printed cfg s

/-- Every GET through `api_request` emits exactly its one `netGet` event. -/
theorem api_get_events (srv : Server) (cfg : Config) (path : String)
    (params : List (String × String)) (data : String) :
    (api_request srv cfg path "GET" params data).1 =
      [Event.netGet (api_url cfg path) params] := by
  rw [api_request_get_eq]
  cases hg : srv.get (api_url cfg path) params with
  | error e => rfl
  | ok r =>
    cases hj : r.jsonOf with
    | none => simp [hj]
    | some v => simp [hj]

/-- `get_stores_for_workspace` emits exactly its one `netGet` event. -/
theorem get_stores_events (srv : Server) (cfg : Config) (w : String) :
    (get_stores_for_workspace srv cfg w).1 =
      [Event.netGet (api_url cfg ("/workspaces/" ++ w ++ "/datastores")) []] := by
  simp only [get_stores_for_workspace]
  repeat' split
  all_goals simp [api_get_events]

/-- `get_unassigned_layers` emits exactly its one `netGet` event. -/
theorem get_unassigned_events (srv : Server) (cfg : Config) (w s : String) :
    (get_unassigned_layers srv cfg w s).1 =
      [Event.netGet
        (api_url cfg ("/workspaces/" ++ w ++ "/datastores/" ++ s ++ "/featuretypes"))
        [("list", "available")]] := by
  simp only [get_unassigned_layers]
  repeat' split
  all_goals simp [api_get_events]

/-- `publish_featuretype` emits exactly its one `netPost` event, carrying the
given body. -/
theorem publish_events (srv : Server) (cfg : Config) (w s d : String) :
    (publish_featuretype srv cfg w s d).1 =
      [Event.netPost
        (api_url cfg ("/workspaces/" ++ w ++ "/datastores/" ++ s ++ "/featuretypes"))
        d] := by
  simp only [publish_featuretype, api_request_post_eq]
  repeat' split
  all_goals rfl

/-- The body POSTed for a layer is always a `make_layer` definition for that
layer with its mapped title and the default native name. -/
theorem publish_posts (srv : Server) (cfg : Config) (w sn : String) (layer : PyVal) :
    PostsAreLayerDefs cfg (publish_featuretype srv cfg w sn
      (make_layer layer (map_title cfg layer) PyVal.none)).1 := by
  rw [publish_events]
  intro ev hev
  have h := List.mem_singleton.mp hev
  subst h
  exact ⟨layer, rfl⟩

theorem run_layers_posts (srv : Server) (cfg : Config) (w sn : String)
    (layers : List PyVal) :
    PostsAreLayerDefs cfg (run_layers srv cfg w sn layers).1 := by
  induction layers with
  | nil => exact postsAreLayerDefs_nil cfg
  | cons layer rest ih =>
    simp only [run_layers]
    cases hp : (publish_featuretype srv cfg w sn
        (make_layer layer (map_title cfg layer) PyVal.none)).2 with
    | error e =>
      simp only [hp]
      exact postsAreLayerDefs_append (postsAreLayerDefs_printed cfg _)
        (publish_posts srv cfg w sn layer)
    | ok resp =>
      simp only [hp]
      exact postsAreLayerDefs_append
        (postsAreLayerDefs_append
          (postsAreLayerDefs_append (postsAreLayerDefs_printed cfg _)
            (publish_posts srv cfg w sn layer))
          (postsAreLayerDefs_printed cfg _))
        ih

theorem run_store_posts (srv : Server) (cfg : Config) (w : String) (store : PyVal) :
    PostsAreLayerDefs cfg (run_store srv cfg w store).1 := by
  simp only [run_store]
  repeat' split
  all_goals simp only [get_unassigned_events]
  all_goals repeat' first
    | exact postsAreLayerDefs_nil cfg
    | exact postsAreLayerDefs_netGet cfg _ _
    | exact postsAreLayerDefs_printed cfg _
    | exact postsAreLayerDefs_ite_printed cfg _ _
    | exact run_layers_posts srv cfg w _ _
    | apply postsAreLayerDefs_append

theorem run_stores_posts (srv : Server) (cfg : Config) (w : String)
    (stores : List PyVal) :
    PostsAreLayerDefs cfg (run_stores srv cfg w stores).1 := by
  induction stores with
  | nil => exact postsAreLayerDefs_nil cfg
  | cons s rest ih =>
    simp only [run_stores]
    cases h : (run_store srv cfg w s).2 with
    | error e =>
      simp only [h]
      exact run_store_posts srv cfg w s
    | ok u =>
      simp only [h]
      exact postsAreLayerDefs_append (run_store_posts srv cfg w s) ih

theorem run_workspace_posts (srv : Server) (cfg : Config) (w : String) :
    PostsAreLayerDefs cfg (run_workspace srv cfg w).1 := by
  have hstores : PostsAreLayerDefs cfg (get_stores_for_workspace srv cfg w).1 := by
    rw [get_stores_events]
    exact postsAreLayerDefs_netGet cfg _ _
  simp only [run_workspace]
  cases hg : (get_stores_for_workspace srv cfg w).2 with
  | error e =>
    simp only [hg]
    exact postsAreLayerDefs_append hstores (postsAreLayerDefs_printed cfg _)
  | ok stores =>
    cases hi : stores.pyIter with
    | error e =>
      simp only [hg, hi]
      exact hstores
    | ok storeList =>
      simp only [hg, hi]
      exact postsAreLayerDefs_append hstores (run_stores_posts srv cfg w storeList)

theorem run_workspaces_posts (srv : Server) (cfg : Config) (ws : List String) :
    PostsAreLayerDefs cfg (run_workspaces srv cfg ws).1 := by
  induction ws with
  | nil => exact postsAreLayerDefs_nil cfg
  | cons w rest ih =>
    simp only [run_workspaces]
    cases h : (run_workspace srv cfg w).2 with
    | error e =>
      simp only [h]
      exact run_workspace_posts srv cfg w
    | ok u =>
      simp only [h]
      exact postsAreLayerDefs_append (run_workspace_posts srv cfg w) ih

theorem main_posts (srv : Server) (cfg : Config) :
    PostsAreLayerDefs cfg (main_run srv cfg).1 := by
  simp only [main_run]
  refine postsAreLayerDefs_append ?_ (run_workspaces_posts srv cfg cfg.workspaces)
  intro ev hev
  simp only [List.mem_cons, List.mem_singleton] at hev
  rcases hev with h | h | h
  · subst h; trivial
  · subst h; trivial
  · exact absurd h (List.not_mem_nil ev)

/-- Claim C9: every POSTed feature-type definition in every run of the
script, over any server and configuration, is a `make_layer` serialization —
a `featureType` envelope around a copy of `layer_template` — and the dict
inside that envelope maps `"enabled"` to `True`: no call path publishes a
disabled layer. -/
theorem published_definitions_always_enabled (srv : Server) (cfg : Config)
    (url body : String) (h : Event.netPost url body ∈ (main_run srv cfg).1) :
    ∃ l, body = make_layer l (map_title cfg l) PyVal.none
      ∧ (dictEntries (make_layer_obj l (map_title cfg l) PyVal.none)).lookup "enabled"
          = some (PyVal.bool true) := by
  have hp : EventPostsLayer cfg (Event.netPost url body) :=
    main_posts srv cfg (Event.netPost url body) h
  have hp' : ∃ l, body = make_layer l (map_title cfg l) PyVal.none := hp
  obtain ⟨l, hl⟩ := hp'
  exact ⟨l, hl, rfl⟩

theorem published_definitions_always_enabled_witness :
    ∃ l, make_layer (PyVal.str "a") (PyVal.str "a") PyVal.none
        = make_layer l (map_title cfgOne l) PyVal.none
      ∧ (dictEntries (make_layer_obj l (map_title cfgOne l) PyVal.none)).lookup "enabled"
          = some (PyVal.bool true) :=
  published_definitions_always_enabled srvSingle cfgOne
    "https://h/r/workspaces/ws/datastores/st/featuretypes"
    (make_layer (PyVal.str "a") (PyVal.str "a") PyVal.none)
    (by decide)
